import Mathlib

/-!
Shallow embedding of `src/app.py`, a Flask image-upload service backed by
Azure Blob Storage, together with proofs about its request-validation,
naming, URL-construction and error-handling behaviour.

Conventions of the embedding:
* environment variables are `Option String` (`none` = unset, `some ""` = set
  but empty), mirroring `os.getenv`;
* the blob container is a list of (name, blob) pairs; `upload_blob` with
  `overwrite=True` is create-or-replace;
* a possible Storage-Gateway failure during a handler is an
  `Option String` argument (`some msg` = the SDK call raises an exception
  whose `str` is `msg`); the `try/except` of each handler maps it to the
  HTTP 500 JSON envelope;
* `datetime.utcnow()` is an explicit `UTCTime` argument of the upload
  handler;
* byte contents are `List Nat`.
-/

namespace Case07

/-- Python truthiness of an optional string: `None` and `""` are falsy.
Used by the startup checks `if not AZURE_STORAGE_CONNECTION_STRING` and
`if not STORAGE_ACCOUNT_URL`. -/
def truthy : Option String → Bool
  | none => false
  | some s => s ≠ ""

/-- `MAX_FILE_SIZE = 10 * 1024 * 1024` (app.py line 23). -/
def MAX_FILE_SIZE : Nat := 10 * 1024 * 1024

/-- `ALLOWED_CONTENT_TYPES = {"image/jpeg", "image/png", "image/gif"}`
(app.py line 24); membership in the Python set is exact string equality. -/
def ALLOWED_CONTENT_TYPES : List String := ["image/jpeg", "image/png", "image/gif"]

/-- The configuration block of app.py lines 13-21: read the three
environment variables (with default `"lanternfly-images"` for
`IMAGES_CONTAINER`), raise `RuntimeError` if the connection string is
falsy, then if the account URL is falsy; otherwise the process starts with
the resulting three values (accountUrl, container, connectionString). -/
def startupConfig (storage_account_url images_container
    azure_storage_connection_string : Option String) :
    Except String (String × String × String) :=
  if !(truthy azure_storage_connection_string) then
    Except.error "Missing AZURE_STORAGE_CONNECTION_STRING environment variable."
  else if !(truthy storage_account_url) then
    Except.error "Missing STORAGE_ACCOUNT_URL environment variable."
  else
    Except.ok (storage_account_url.getD "",
      images_container.getD "lanternfly-images",
      azure_storage_connection_string.getD "")

/-- Outcome of `cc.create_container(public_access="blob")`: success, or an
exception. The distinguishable exception cases matter for the bootstrap
claim. -/
inductive AzureError : Type
  | containerAlreadyExists : AzureError
  | authFailure : String → AzureError
  | other : String → AzureError
deriving DecidableEq

/-- Whether the process finishes startup or crashes with an exception. -/
inductive StartupOutcome : Type
  | started : StartupOutcome
  | crashed : String → StartupOutcome
deriving DecidableEq

/-- app.py lines 36-39: `try: cc.create_container(public_access="blob")
except Exception: pass`. Every exception, of any kind, is caught by the
bare `except Exception` and discarded, so startup always continues. -/
def containerBootstrap : Except AzureError Unit → StartupOutcome
  | Except.ok _ => StartupOutcome.started
  | Except.error _ => StartupOutcome.started

/-! ### werkzeug's `secure_filename`, POSIX behaviour

`secure_filename` normalises to NFKD, encodes to ASCII dropping
non-encodable characters, replaces `os.sep` (`/` on POSIX; `altsep` is
`None`) by a space, joins the whitespace-split pieces with `_`, deletes
every character outside `A-Za-z0-9_.-`, and finally strips leading and
trailing `.` and `_`. The Windows device-name branch is dead on POSIX.
The embedding drops every non-ASCII code point, which coincides with
NFKD-then-encode-ignore on ASCII input (all inputs in this development). -/

/-- ASCII characters on which Python's `str.split()` splits. -/
def isPySpace (c : Char) : Bool :=
  c = ' ' || c = '\t' || c = '\n' || c = '\r' ||
  c = '\x0b' || c = '\x0c' || c = '\x1c' || c = '\x1d' || c = '\x1e' || c = '\x1f'

/-- Python `str.split()` (no argument): split on runs of whitespace,
discarding empty pieces. `acc` holds the current word reversed. -/
def pySplit : List Char → List Char → List (List Char)
  | [], acc => if acc.isEmpty then [] else [acc.reverse]
  | c :: rest, acc =>
    if isPySpace c then
      if acc.isEmpty then pySplit rest [] else acc.reverse :: pySplit rest []
    else
      pySplit rest (c :: acc)

/-- The character class kept by `_filename_ascii_strip_re`: `A-Za-z0-9_.-`. -/
def keepChar (c : Char) : Bool :=
  c.isAlpha || c.isDigit || c = '_' || c = '.' || c = '-'

/-- Characters removed from both ends by the final `.strip("._")`. -/
def stripSet (c : Char) : Bool := c = '.' || c = '_'

/-- Remove the characters satisfying `p` from both ends of the list. -/
def stripEnds (p : Char → Bool) (l : List Char) : List Char :=
  ((l.dropWhile p).reverse.dropWhile p).reverse

/-- werkzeug `secure_filename`, POSIX behaviour (see section comment). -/
def secure_filename (s : String) : String :=
  let ascii := s.data.filter (fun c => c.toNat < 128)
  let sepReplaced := ascii.map (fun c => if c = '/' then ' ' else c)
  let joined := List.intercalate ['_'] (pySplit sepReplaced [])
  ⟨stripEnds stripSet (joined.filter keepChar)⟩

/-- A UTC wall-clock instant with whole-second resolution, the part of
`datetime.utcnow()` observable through `strftime("%Y%m%dT%H%M%S")`. -/
structure UTCTime : Type where
  year : Nat
  month : Nat
  day : Nat
  hour : Nat
  minute : Nat
  second : Nat
deriving DecidableEq

/-- Zero-pad a number to two digits, as `%m %d %H %M %S` do. -/
def pad2 (n : Nat) : String :=
  if n < 10 then "0" ++ toString n else toString n

/-- Zero-pad a year to four digits, as `%Y` does for years since 1000. -/
def pad4 (n : Nat) : String :=
  if n < 10 then "000" ++ toString n
  else if n < 100 then "00" ++ toString n
  else if n < 1000 then "0" ++ toString n
  else toString n

/-- `datetime.strftime("%Y%m%dT%H%M%S")` (app.py line 79). -/
def strftimeCompact (t : UTCTime) : String :=
  pad4 t.year ++ pad2 t.month ++ pad2 t.day ++ "T" ++
  pad2 t.hour ++ pad2 t.minute ++ pad2 t.second

/-- app.py line 80: `blob_name = f"{timestamp}-{safe_name}"`. -/
def blobNameOf (t : UTCTime) (filename : String) : String :=
  strftimeCompact t ++ "-" ++ secure_filename filename

/-- A stored blob: its bytes and its content-type tag. -/
structure Blob : Type where
  data : List Nat
  contentType : String
deriving DecidableEq

/-- The container's contents: (blob name, blob) pairs in listing order. -/
def ContainerState : Type := List (String × Blob)

/-- `cc.upload_blob(name=..., data=..., overwrite=True, content_type=...)`
(app.py lines 83-88): create-or-replace of the named blob. -/
def upload_blob (name : String) (b : Blob) (st : ContainerState) : ContainerState :=
  (st.filter (fun kv => kv.1 != name)) ++ [(name, b)]

/-- How many stored objects the container holds under a given name. -/
def countKey (st : ContainerState) (name : String) : Nat :=
  (st.filter (fun kv => kv.1 == name)).length

/-- The `file` part of the multipart request (`request.files["file"]`):
client-declared filename and MIME type, and the content bytes. -/
structure FilePart : Type where
  filename : String
  mimetype : String
  content : List Nat
deriving DecidableEq

/-- An upload request: `file` is `none` when `"file" not in request.files`. -/
structure UploadRequest : Type where
  file : Option FilePart
deriving DecidableEq

/-- The observable part of a handler's JSON response: HTTP status plus the
`ok`, `error`, `url` and `gallery` JSON fields (absent fields are `none`). -/
structure Response : Type where
  status : Nat
  ok : Bool
  error : Option String := none
  url : Option String := none
  gallery : Option (List String) := none
deriving DecidableEq

/-- app.py line 90 and line 104: `f"{STORAGE_ACCOUNT_URL}/{IMAGES_CONTAINER}/{name}"`. -/
def publicUrl (baseUrl container name : String) : String :=
  baseUrl ++ "/" ++ container ++ "/" ++ name

/-- app.py lines 77-93, the body of `upload` after validation has passed:
derive `safe_name`, `timestamp`, `blob_name`, call `upload_blob`
(overwrite), and answer 200 with the public URL; a gateway exception is
turned by the handler's `except` into 500 with the exception's message. -/
def do_upload (baseUrl container : String) (t : UTCTime) (f : FilePart)
    (st : ContainerState) (gw : Option String) : Response × ContainerState :=
  let blob_name := blobNameOf t f.filename
  match gw with
  | some msg => ({ status := 500, ok := false, error := some msg }, st)
  | none =>
    ({ status := 200, ok := true, url := some (publicUrl baseUrl container blob_name) },
      upload_blob blob_name ⟨f.content, f.mimetype⟩ st)

/-- app.py lines 57-97, `POST /api/v1/upload`: the four validation checks
in source order (missing file part, empty filename, content type not in
`ALLOWED_CONTENT_TYPES`, size above `MAX_FILE_SIZE` where size is measured
by seeking to the end of the stream), then the upload step. -/
def upload (baseUrl container : String) (t : UTCTime) (req : UploadRequest)
    (st : ContainerState) (gw : Option String) : Response × ContainerState :=
  match req.file with
  | none => ({ status := 400, ok := false, error := some "Missing file field" }, st)
  | some f =>
    if f.filename = "" then
      ({ status := 400, ok := false, error := some "Empty filename" }, st)
    else if f.mimetype ∉ ALLOWED_CONTENT_TYPES then
      ({ status := 400, ok := false,
         error := some ("Unsupported content type: " ++ f.mimetype) }, st)
    else
      let size := f.content.length
      if size > MAX_FILE_SIZE then
        ({ status := 400, ok := false, error := some "File too large (max 10 MB)" }, st)
      else
        do_upload baseUrl container t f st gw

/-- app.py lines 100-108, `GET /api/v1/gallery`: list the blobs and map
each name to its public URL; a gateway exception becomes 500 with the
exception's message. -/
def gallery (baseUrl container : String) (st : ContainerState)
    (gw : Option String) : Response :=
  match gw with
  | some msg => { status := 500, ok := false, error := some msg }
  | none =>
    { status := 200, ok := true,
      gallery := some (st.map (fun kv => publicUrl baseUrl container kv.1)) }

/-- app.py lines 52-54, `GET /api/v1/health`: `return jsonify(ok=True)`. -/
def health : Response := { status := 200, ok := true }

/-- The JSON API routes of the app (the index page serves static HTML and
is outside the JSON contract). -/
inductive ApiRequest : Type
  | health : ApiRequest
  | upload : UTCTime → UploadRequest → ApiRequest
  | gallery : ApiRequest

/-- The Flask routing table restricted to the JSON API: dispatch a request
to its handler. `gw` is the Storage-Gateway failure the request would hit
(`none` when the gateway is reachable and succeeds). -/
def appHandle (baseUrl container : String) (st : ContainerState)
    (gw : Option String) : ApiRequest → Response × ContainerState
  | ApiRequest.health => (health, st)
  | ApiRequest.upload t req => upload baseUrl container t req st gw
  | ApiRequest.gallery => (gallery baseUrl container st gw, st)

/-- Adjacent `//` occurs somewhere in the list. -/
def hasDoubleSlashL : List Char → Bool
  | [] => false
  | [_] => false
  | a :: b :: rest => (a == '/' && b == '/') || hasDoubleSlashL (b :: rest)

/-- Adjacent `//` occurs somewhere in the string. -/
def hasDoubleSlash (s : String) : Bool := hasDoubleSlashL s.data

/-- Whether a startup outcome is a crash. -/
def StartupOutcome.isCrash : StartupOutcome → Bool
  | StartupOutcome.started => false
  | StartupOutcome.crashed _ => true

/-! ### Helper lemmas -/

/-- Unfolding lemma for `hasDoubleSlashL` on two or more characters. -/
lemma hds_cons_cons (a b : Char) (t : List Char) :
    hasDoubleSlashL (a :: b :: t) =
      ((a == '/' && b == '/') || hasDoubleSlashL (b :: t)) := rfl

/-- A list without `'/'` has no adjacent double slash. -/
lemma hds_of_not_mem (l : List Char) (h : '/' ∉ l) : hasDoubleSlashL l = false := by
  induction l with
  | nil => rfl
  | cons a l ih =>
    have ha : (a == '/') = false :=
      beq_eq_false_iff_ne.mpr (fun hEq => h (hEq ▸ List.mem_cons_self a l))
    have h' : '/' ∉ l := fun hm => h (List.mem_cons_of_mem a hm)
    cases l with
    | nil => rfl
    | cons b t => rw [hds_cons_cons, ih h', Bool.or_false, ha, Bool.false_and]

/-- Prepending a slash-free block before a slash does not affect double-slash
detection. -/
lemma hds_append_no_slash (cl kl : List Char) (h : '/' ∉ cl) :
    hasDoubleSlashL (cl ++ '/' :: kl) = hasDoubleSlashL ('/' :: kl) := by
  induction cl with
  | nil => rfl
  | cons a cl ih =>
    have ha : (a == '/') = false :=
      beq_eq_false_iff_ne.mpr (fun hEq => h (hEq ▸ List.mem_cons_self a cl))
    have h' : '/' ∉ cl := fun hm => h (List.mem_cons_of_mem a hm)
    have ih' := ih h'
    cases cl with
    | nil =>
      simp only [List.cons_append, List.nil_append]
      rw [hds_cons_cons, ha, Bool.false_and, Bool.false_or]
    | cons b t =>
      simp only [List.cons_append] at ih' ⊢
      rw [hds_cons_cons, ih', ha, Bool.false_and, Bool.false_or]

/-- A single slash followed by a slash-free tail has no double slash. -/
lemma hds_slash_cons (kl : List Char) (h : '/' ∉ kl) :
    hasDoubleSlashL ('/' :: kl) = false := by
  cases kl with
  | nil => rfl
  | cons k t =>
    have hk : (k == '/') = false :=
      beq_eq_false_iff_ne.mpr (fun hEq => h (hEq ▸ List.mem_cons_self k t))
    rw [hds_cons_cons, hds_of_not_mem _ h, Bool.or_false, hk, Bool.and_false]

/-- The middle-and-tail part `/container/key` of a public URL has no double
slash when the container name is nonempty and both components are
slash-free. -/
lemma hds_mid (cl kl : List Char) (hc : '/' ∉ cl) (hcne : cl ≠ [])
    (hk : '/' ∉ kl) :
    hasDoubleSlashL ('/' :: (cl ++ '/' :: kl)) = false := by
  cases cl with
  | nil => exact absurd rfl hcne
  | cons c0 ct =>
    have hc0 : (c0 == '/') = false :=
      beq_eq_false_iff_ne.mpr (fun hEq => hc (hEq ▸ List.mem_cons_self c0 ct))
    have h1 := hds_append_no_slash (c0 :: ct) kl hc
    simp only [List.cons_append] at h1 ⊢
    rw [hds_cons_cons, h1, hds_slash_cons kl hk, Bool.or_false, hc0,
      Bool.and_false]

/-- Full URL shape: base, slash, container, slash, key has no double slash
when the base has none and does not end in a slash, and container and key
are slash-free with the container nonempty. -/
lemma hds_full (bl cl kl : List Char) (hb : hasDoubleSlashL bl = false)
    (hbl : bl.getLast? ≠ some '/') (hc : '/' ∉ cl) (hcne : cl ≠ [])
    (hk : '/' ∉ kl) :
    hasDoubleSlashL (bl ++ '/' :: (cl ++ '/' :: kl)) = false := by
  induction bl with
  | nil => exact hds_mid cl kl hc hcne hk
  | cons a bl ih =>
    cases bl with
    | nil =>
      have ha : (a == '/') = false := by
        refine beq_eq_false_iff_ne.mpr (fun hEq => hbl ?_)
        simp [hEq]
      simp only [List.cons_append, List.nil_append]
      rw [hds_cons_cons, hds_mid cl kl hc hcne hk, Bool.or_false, ha,
        Bool.false_and]
    | cons b t =>
      rw [hds_cons_cons] at hb
      rw [Bool.or_eq_false_iff] at hb
      have hbl' : (b :: t).getLast? ≠ some '/' := by
        rwa [List.getLast?_cons_cons] at hbl
      have ih' := ih hb.2 hbl'
      simp only [List.cons_append] at ih' ⊢
      rw [hds_cons_cons, ih', Bool.or_false, hb.1]

/-- A base ending in a slash, followed by the separator slash, produces a
double slash. -/
lemma hds_trailing (bl : List Char) (rest : List Char)
    (h : bl.getLast? = some '/') :
    hasDoubleSlashL (bl ++ '/' :: rest) = true := by
  induction bl with
  | nil => simp at h
  | cons a bl ih =>
    cases bl with
    | nil =>
      have ha : a = '/' := by simpa using h
      simp only [List.cons_append, List.nil_append]
      rw [hds_cons_cons, ha]
      simp
    | cons b t =>
      rw [List.getLast?_cons_cons] at h
      have ih' := ih h
      simp only [List.cons_append] at ih' ⊢
      rw [hds_cons_cons, ih', Bool.or_true]

/-- The character data of a public URL. -/
lemma publicUrl_data (b c k : String) :
    (publicUrl b c k).data = b.data ++ '/' :: (c.data ++ '/' :: k.data) := by
  simp [publicUrl, String.data_append]

/-- A nonempty string has nonempty character data. -/
lemma data_ne_nil_of_ne_empty (s : String) (h : s ≠ "") : s.data ≠ [] := by
  intro hd
  exact h (by cases s with | mk l => cases hd; rfl)

/-- Everything kept by `stripEnds` was already in the list. -/
lemma mem_of_mem_stripEnds (p : Char → Bool) (l : List Char) (c : Char)
    (h : c ∈ stripEnds p l) : c ∈ l := by
  unfold stripEnds at h
  rw [List.mem_reverse] at h
  have h1 := (List.dropWhile_sublist (l := (l.dropWhile p).reverse) (p := p)).subset h
  rw [List.mem_reverse] at h1
  exact (List.dropWhile_sublist (l := l) (p := p)).subset h1

/-- Every character of a sanitized filename is in the kept class
`A-Za-z0-9_.-`. -/
lemma secure_filename_chars (s : String) (c : Char)
    (h : c ∈ (secure_filename s).data) : keepChar c = true := by
  unfold secure_filename at h
  simp only at h
  have := mem_of_mem_stripEnds _ _ _ h
  exact (List.mem_filter.mp this).2

/-- A sanitized filename contains no path separator. -/
lemma secure_filename_no_slash (s : String) : '/' ∉ (secure_filename s).data := by
  intro h
  have := secure_filename_chars s '/' h
  simp [keepChar] at this

/-- `upload_blob` leaves exactly one object under the written name. -/
lemma filter_upload_blob (k : String) (b : Blob) (st : ContainerState) :
    (upload_blob k b st).filter (fun kv => kv.1 == k) = [(k, b)] := by
  unfold upload_blob
  rw [List.filter_append]
  have h1 : (st.filter (fun kv => kv.1 != k)).filter (fun kv => kv.1 == k) = [] := by
    rw [List.filter_filter]
    apply List.filter_eq_nil_iff.mpr
    intro kv _
    cases hkv : kv.1 == k <;> simp [bne, hkv]
  rw [h1]
  simp

/-- Appending the empty string is the identity. -/
lemma append_empty_right (s : String) : s ++ "" = s := by
  cases s with
  | mk l => show String.mk (l ++ []) = String.mk l; rw [List.append_nil]

/-- String append is associative. -/
lemma string_append_assoc (a b c : String) : a ++ b ++ c = a ++ (b ++ c) := by
  cases a with
  | mk la =>
    cases b with
    | mk lb =>
      cases c with
      | mk lc =>
        show String.mk (la ++ lb ++ lc) = String.mk (la ++ (lb ++ lc))
        rw [List.append_assoc]

/-- Branch lemma: a request without a file part is rejected. -/
lemma upload_missing_file (baseUrl container : String) (t : UTCTime)
    (st : ContainerState) (gw : Option String) :
    upload baseUrl container t ⟨none⟩ st gw =
      ({ status := 400, ok := false, error := some "Missing file field" }, st) := rfl

/-- Branch lemma: an empty filename is rejected. -/
lemma upload_empty_filename (baseUrl container : String) (t : UTCTime)
    (f : FilePart) (st : ContainerState) (gw : Option String)
    (hname : f.filename = "") :
    upload baseUrl container t ⟨some f⟩ st gw =
      ({ status := 400, ok := false, error := some "Empty filename" }, st) := by
  simp [upload, hname]

/-- Branch lemma: a content type outside the allowed set is rejected. -/
lemma upload_bad_type (baseUrl container : String) (t : UTCTime)
    (f : FilePart) (st : ContainerState) (gw : Option String)
    (hname : f.filename ≠ "") (htype : f.mimetype ∉ ALLOWED_CONTENT_TYPES) :
    upload baseUrl container t ⟨some f⟩ st gw =
      ({ status := 400, ok := false,
         error := some ("Unsupported content type: " ++ f.mimetype) }, st) := by
  simp [upload, hname, htype]

/-- Branch lemma: an oversized payload is rejected. -/
lemma upload_too_large (baseUrl container : String) (t : UTCTime)
    (f : FilePart) (st : ContainerState) (gw : Option String)
    (hname : f.filename ≠ "") (htype : f.mimetype ∈ ALLOWED_CONTENT_TYPES)
    (hsize : f.content.length > MAX_FILE_SIZE) :
    upload baseUrl container t ⟨some f⟩ st gw =
      ({ status := 400, ok := false,
         error := some "File too large (max 10 MB)" }, st) := by
  simp [upload, hname, htype, hsize]

/-- Branch lemma: a request passing all four checks proceeds to the upload
step. -/
lemma upload_passes (baseUrl container : String) (t : UTCTime)
    (f : FilePart) (st : ContainerState) (gw : Option String)
    (hname : f.filename ≠ "") (htype : f.mimetype ∈ ALLOWED_CONTENT_TYPES)
    (hsize : f.content.length ≤ MAX_FILE_SIZE) :
    upload baseUrl container t ⟨some f⟩ st gw =
      do_upload baseUrl container t f st gw := by
  simp [upload, hname, htype, not_lt.mpr hsize]

/-- Unfolding lemma: the upload step with a reachable gateway stores the
blob and answers 200 with the public URL. -/
lemma do_upload_ok (baseUrl container : String) (t : UTCTime)
    (f : FilePart) (st : ContainerState) :
    do_upload baseUrl container t f st none =
      ({ status := 200, ok := true,
         url := some (publicUrl baseUrl container (blobNameOf t f.filename)) },
        upload_blob (blobNameOf t f.filename) ⟨f.content, f.mimetype⟩ st) := rfl

/-- Unfolding lemma: the upload step with a failing gateway answers 500
with the exception's message and leaves the container unchanged. -/
lemma do_upload_err (baseUrl container : String) (t : UTCTime)
    (f : FilePart) (st : ContainerState) (msg : String) :
    do_upload baseUrl container t f st (some msg) =
      ({ status := 500, ok := false, error := some msg }, st) := rfl

/-! ### Claim theorems -/

/-- C9: `GET /api/v1/health` answers HTTP 200 with `ok=true`, touches no
Storage-Gateway state (the container is returned unchanged), and its
response does not depend on whether the gateway is reachable (`gw` is
arbitrary, including any failure). -/
theorem health_always_200 (baseUrl container : String) (st : ContainerState)
    (gw : Option String) :
    appHandle baseUrl container st gw ApiRequest.health =
      ({ status := 200, ok := true }, st) := rfl

/-- C4 counterexample: an authentication failure during container
bootstrap, distinct from "container already exists", is swallowed by the
bare `except Exception: pass` and does not crash startup, contrary to the
claim that only the already-exists failure is swallowed. -/
theorem containerBootstrap_swallows_auth_failure :
    (containerBootstrap
        (Except.error (AzureError.authFailure "credential invalid"))).isCrash =
      false := rfl

/-- C4 amended: during container bootstrap, every container-creation
failure — "already exists", credential failure, or any other — is
swallowed and startup continues; no bootstrap failure propagates as a
startup crash. -/
theorem containerBootstrap_swallows_everything (r : Except AzureError Unit) :
    containerBootstrap r = StartupOutcome.started := by
  cases r <;> rfl

/-- C8 counterexample: with the container name set to the empty string
(and credential and base URL present), startup succeeds instead of
refusing to start, contrary to the claim that all three values must be
non-empty. -/
theorem startupConfig_accepts_empty_container :
    startupConfig (some "https://acct.example.net") (some "")
        (some "UseDevelopmentStorage=true") =
      Except.ok ("https://acct.example.net", "", "UseDevelopmentStorage=true") := rfl

/-- C8 amended: at startup only the connection credential and the base URL
are checked (in that order): the process refuses to start exactly when one
of them is absent or empty; the container name is never checked — it
defaults to `lanternfly-images` when unset, but an explicitly empty
container name is accepted and the process starts. -/
theorem startupConfig_checks (u c cs : Option String) :
    (truthy cs = false →
      startupConfig u c cs =
        Except.error "Missing AZURE_STORAGE_CONNECTION_STRING environment variable.")
  ∧ (truthy cs = true → truthy u = false →
      startupConfig u c cs =
        Except.error "Missing STORAGE_ACCOUNT_URL environment variable.")
  ∧ (truthy cs = true → truthy u = true →
      startupConfig u c cs =
        Except.ok (u.getD "", c.getD "lanternfly-images", cs.getD "")) := by
  refine ⟨?_, ?_, ?_⟩
  · intro h; simp [startupConfig, h]
  · intro h1 h2; simp [startupConfig, h1, h2]
  · intro h1 h2; simp [startupConfig, h1, h2]

/-- Witness for C8 amended: with both required values unset, startup fails
with the connection-string error; with both present and the container
name unset, startup succeeds with the default container name. -/
theorem startupConfig_checks_witness :
    startupConfig none none none =
      Except.error "Missing AZURE_STORAGE_CONNECTION_STRING environment variable." ∧
    startupConfig (some "https://acct.example.net") none (some "cs") =
      Except.ok ("https://acct.example.net", "lanternfly-images", "cs") :=
  ⟨(startupConfig_checks none none none).1 rfl,
   (startupConfig_checks (some "https://acct.example.net") none (some "cs")).2.2
     rfl rfl⟩

/-- C5: for a request whose file part is present with non-empty filename
and allowed content type, the response is the 400 `FileTooLarge` envelope
exactly when the content's byte length is strictly greater than
10 × 1024 × 1024; a payload of at most that size (in particular exactly
10 MiB) passes validation and proceeds to the upload step. -/
theorem upload_size_limit (baseUrl container : String) (t : UTCTime)
    (f : FilePart) (st : ContainerState) (gw : Option String)
    (hname : f.filename ≠ "") (htype : f.mimetype ∈ ALLOWED_CONTENT_TYPES) :
    (((upload baseUrl container t ⟨some f⟩ st gw).1.status = 400 ∧
      (upload baseUrl container t ⟨some f⟩ st gw).1.error =
        some "File too large (max 10 MB)") ↔
      f.content.length > 10 * 1024 * 1024)
  ∧ (f.content.length ≤ 10 * 1024 * 1024 →
      upload baseUrl container t ⟨some f⟩ st gw =
        do_upload baseUrl container t f st gw) := by
  constructor
  · constructor
    · rintro ⟨h400, _⟩
      by_contra hgt
      have hle : f.content.length ≤ 10 * 1024 * 1024 := not_lt.mp hgt
      have heq := upload_passes baseUrl container t f st gw hname htype hle
      rw [heq] at h400
      cases gw with
      | none => rw [do_upload_ok] at h400; simp at h400
      | some msg => rw [do_upload_err] at h400; simp at h400
    · intro hgt
      rw [upload_too_large baseUrl container t f st gw hname htype hgt]
      exact ⟨rfl, rfl⟩
  · intro hle
    exact upload_passes baseUrl container t f st gw hname htype hle

/-- Witness for C5: a tiny PNG is not rejected as too large and proceeds
to the upload step. -/
theorem upload_size_limit_witness :
    (((upload "b" "c" ⟨2024, 1, 2, 3, 4, 5⟩
          ⟨some ⟨"a.png", "image/png", [0, 1, 2]⟩⟩ [] none).1.status = 400 ∧
      (upload "b" "c" ⟨2024, 1, 2, 3, 4, 5⟩
          ⟨some ⟨"a.png", "image/png", [0, 1, 2]⟩⟩ [] none).1.error =
        some "File too large (max 10 MB)") ↔
      ([0, 1, 2] : List Nat).length > 10 * 1024 * 1024)
  ∧ (([0, 1, 2] : List Nat).length ≤ 10 * 1024 * 1024 →
      upload "b" "c" ⟨2024, 1, 2, 3, 4, 5⟩
          ⟨some ⟨"a.png", "image/png", [0, 1, 2]⟩⟩ [] none =
        do_upload "b" "c" ⟨2024, 1, 2, 3, 4, 5⟩
          ⟨"a.png", "image/png", [0, 1, 2]⟩ [] none) :=
  upload_size_limit "b" "c" ⟨2024, 1, 2, 3, 4, 5⟩
    ⟨"a.png", "image/png", [0, 1, 2]⟩ [] none (by decide) (by decide)

/-- C7: any Storage-Gateway failure during the upload step or during
gallery listing is caught by the handler's `except` and becomes an HTTP
500 response with `ok=false` and the underlying error's message; the
handlers stay total and the container state is unchanged. -/
theorem gateway_error_envelope (baseUrl container : String) (t : UTCTime)
    (f : FilePart) (st : ContainerState) (msg : String)
    (hname : f.filename ≠ "") (htype : f.mimetype ∈ ALLOWED_CONTENT_TYPES)
    (hsize : f.content.length ≤ 10 * 1024 * 1024) :
    upload baseUrl container t ⟨some f⟩ st (some msg) =
      ({ status := 500, ok := false, error := some msg }, st)
  ∧ gallery baseUrl container st (some msg) =
      { status := 500, ok := false, error := some msg } := by
  constructor
  · rw [upload_passes baseUrl container t f st (some msg) hname htype hsize,
      do_upload_err]
  · rfl

/-- Witness for C7: a concrete gateway failure during a valid upload and
during a listing yields the 500 envelope with the failure's message. -/
theorem gateway_error_envelope_witness :
    upload "b" "c" ⟨2024, 1, 2, 3, 4, 5⟩
        ⟨some ⟨"a.png", "image/png", [0]⟩⟩ [] (some "connection reset") =
      ({ status := 500, ok := false, error := some "connection reset" }, [])
  ∧ gallery "b" "c" [] (some "connection reset") =
      { status := 500, ok := false, error := some "connection reset" } :=
  gateway_error_envelope "b" "c" ⟨2024, 1, 2, 3, 4, 5⟩
    ⟨"a.png", "image/png", [0]⟩ [] "connection reset"
    (by decide) (by decide) (by decide)

/-- C10: the empty-filename check fires only on the raw client filename;
the filename `..` sanitizes to the empty string, so a valid upload named
`..` passes validation, derives the storage key timestamp-hyphen-nothing,
is stored under that key, and answers 200. -/
theorem upload_dotdot_empty_key (baseUrl container : String) (t : UTCTime)
    (content : List Nat) (st : ContainerState)
    (hsize : content.length ≤ 10 * 1024 * 1024) :
    secure_filename ".." = ""
  ∧ blobNameOf t ".." = strftimeCompact t ++ "-"
  ∧ upload baseUrl container t ⟨some ⟨"..", "image/png", content⟩⟩ st none =
      ({ status := 200, ok := true,
         url := some (publicUrl baseUrl container (strftimeCompact t ++ "-")) },
        upload_blob (strftimeCompact t ++ "-") ⟨content, "image/png"⟩ st) := by
  have h1 : secure_filename ".." = "" := rfl
  have h2 : blobNameOf t ".." = strftimeCompact t ++ "-" := by
    unfold blobNameOf
    rw [h1, append_empty_right]
  refine ⟨h1, h2, ?_⟩
  rw [upload_passes baseUrl container t ⟨"..", "image/png", content⟩ st none
    (show (".." : String) ≠ "" by decide)
    (show ("image/png" : String) ∈ ALLOWED_CONTENT_TYPES by decide) hsize,
    do_upload_ok]
  simp [h2]

/-- C1: the upload handler applies the four validation checks in source
order — missing file part, empty filename, content type outside the
allowed set (exact string comparison), byte size above the limit — and the
first failing check answers HTTP 400 with `ok=false` and a descriptive
error, leaving the container unchanged; a request passing all four
proceeds to the upload step. -/
theorem upload_validation_order (baseUrl container : String) (t : UTCTime)
    (st : ContainerState) (gw : Option String) :
    upload baseUrl container t ⟨none⟩ st gw =
      ({ status := 400, ok := false, error := some "Missing file field" }, st)
  ∧ (∀ f : FilePart, f.filename = "" →
      upload baseUrl container t ⟨some f⟩ st gw =
        ({ status := 400, ok := false, error := some "Empty filename" }, st))
  ∧ (∀ f : FilePart, f.filename ≠ "" → f.mimetype ∉ ALLOWED_CONTENT_TYPES →
      upload baseUrl container t ⟨some f⟩ st gw =
        ({ status := 400, ok := false,
           error := some ("Unsupported content type: " ++ f.mimetype) }, st))
  ∧ (∀ f : FilePart, f.filename ≠ "" → f.mimetype ∈ ALLOWED_CONTENT_TYPES →
      f.content.length > 10 * 1024 * 1024 →
      upload baseUrl container t ⟨some f⟩ st gw =
        ({ status := 400, ok := false,
           error := some "File too large (max 10 MB)" }, st))
  ∧ (∀ f : FilePart, f.filename ≠ "" → f.mimetype ∈ ALLOWED_CONTENT_TYPES →
      f.content.length ≤ 10 * 1024 * 1024 →
      upload baseUrl container t ⟨some f⟩ st gw =
        do_upload baseUrl container t f st gw) :=
  ⟨upload_missing_file baseUrl container t st gw,
   fun f h => upload_empty_filename baseUrl container t f st gw h,
   fun f h1 h2 => upload_bad_type baseUrl container t f st gw h1 h2,
   fun f h1 h2 h3 => upload_too_large baseUrl container t f st gw h1 h2 h3,
   fun f h1 h2 h3 => upload_passes baseUrl container t f st gw h1 h2 h3⟩

/-- Witness for C1: each validation branch observed on a concrete request,
plus a passing request reaching the upload step. -/
theorem upload_validation_order_witness :
    upload "b" "c" ⟨2024, 1, 2, 3, 4, 5⟩ ⟨none⟩ [] none =
      ({ status := 400, ok := false, error := some "Missing file field" }, [])
  ∧ upload "b" "c" ⟨2024, 1, 2, 3, 4, 5⟩
        ⟨some ⟨"", "image/png", [0]⟩⟩ [] none =
      ({ status := 400, ok := false, error := some "Empty filename" }, [])
  ∧ upload "b" "c" ⟨2024, 1, 2, 3, 4, 5⟩
        ⟨some ⟨"a.txt", "text/plain", [0]⟩⟩ [] none =
      ({ status := 400, ok := false,
         error := some ("Unsupported content type: " ++ "text/plain") }, [])
  ∧ upload "b" "c" ⟨2024, 1, 2, 3, 4, 5⟩
        ⟨some ⟨"a.png", "image/png", List.replicate (10 * 1024 * 1024 + 1) 0⟩⟩
        [] none =
      ({ status := 400, ok := false,
         error := some "File too large (max 10 MB)" }, [])
  ∧ upload "b" "c" ⟨2024, 1, 2, 3, 4, 5⟩
        ⟨some ⟨"a.png", "image/png", [0]⟩⟩ [] none =
      do_upload "b" "c" ⟨2024, 1, 2, 3, 4, 5⟩ ⟨"a.png", "image/png", [0]⟩ [] none :=
  ⟨(upload_validation_order "b" "c" ⟨2024, 1, 2, 3, 4, 5⟩ [] none).1,
   (upload_validation_order "b" "c" ⟨2024, 1, 2, 3, 4, 5⟩ [] none).2.1
     ⟨"", "image/png", [0]⟩ rfl,
   (upload_validation_order "b" "c" ⟨2024, 1, 2, 3, 4, 5⟩ [] none).2.2.1
     ⟨"a.txt", "text/plain", [0]⟩ (by decide) (by decide),
   (upload_validation_order "b" "c" ⟨2024, 1, 2, 3, 4, 5⟩ [] none).2.2.2.1
     ⟨"a.png", "image/png", List.replicate (10 * 1024 * 1024 + 1) 0⟩
     (show ("a.png" : String) ≠ "" by decide)
     (show ("image/png" : String) ∈ ALLOWED_CONTENT_TYPES by decide)
     (show (List.replicate (10 * 1024 * 1024 + 1) (0 : Nat)).length >
        10 * 1024 * 1024 by
      rw [List.length_replicate]; exact Nat.lt_succ_self _),
   (upload_validation_order "b" "c" ⟨2024, 1, 2, 3, 4, 5⟩ [] none).2.2.2.2
     ⟨"a.png", "image/png", [0]⟩ (by decide) (by decide) (by decide)⟩

/-- C2: the storage key is the UTC upload time as `YYYYMMDDTHHMMSS`, a
hyphen, and the sanitized filename; sanitization keeps only
`A-Za-z0-9._-` (in particular no path separator survives); a valid PNG
named `my photo.png` uploaded at 2024-01-02T03:04:05Z is stored under
`20240102T030405-my_photo.png` and the 200 response's `url` ends in that
key. -/
theorem upload_key_and_url (baseUrl container : String) (st : ContainerState)
    (content : List Nat) (t : UTCTime) (name : String)
    (hsize : content.length ≤ 10 * 1024 * 1024) :
    blobNameOf t name = strftimeCompact t ++ "-" ++ secure_filename name
  ∧ (∀ c ∈ (secure_filename name).data, keepChar c = true)
  ∧ '/' ∉ (secure_filename name).data
  ∧ secure_filename "my photo.png" = "my_photo.png"
  ∧ strftimeCompact ⟨2024, 1, 2, 3, 4, 5⟩ = "20240102T030405"
  ∧ blobNameOf ⟨2024, 1, 2, 3, 4, 5⟩ "my photo.png" =
      "20240102T030405-my_photo.png"
  ∧ (upload baseUrl container ⟨2024, 1, 2, 3, 4, 5⟩
        ⟨some ⟨"my photo.png", "image/png", content⟩⟩ st none).1 =
      { status := 200, ok := true,
        url := some (publicUrl baseUrl container "20240102T030405-my_photo.png") }
  ∧ ∃ p, (upload baseUrl container ⟨2024, 1, 2, 3, 4, 5⟩
        ⟨some ⟨"my photo.png", "image/png", content⟩⟩ st none).1.url =
      some (p ++ "20240102T030405-my_photo.png") := by
  refine ⟨rfl, fun c hc => secure_filename_chars name c hc,
    secure_filename_no_slash name, rfl, rfl, rfl, ?_, ?_⟩
  · rw [upload_passes baseUrl container ⟨2024, 1, 2, 3, 4, 5⟩
      ⟨"my photo.png", "image/png", content⟩ st none
      (show ("my photo.png" : String) ≠ "" by decide)
      (show ("image/png" : String) ∈ ALLOWED_CONTENT_TYPES by decide) hsize]
    rfl
  · refine ⟨baseUrl ++ "/" ++ container ++ "/", ?_⟩
    rw [upload_passes baseUrl container ⟨2024, 1, 2, 3, 4, 5⟩
      ⟨"my photo.png", "image/png", content⟩ st none
      (show ("my photo.png" : String) ≠ "" by decide)
      (show ("image/png" : String) ∈ ALLOWED_CONTENT_TYPES by decide) hsize]
    rfl

/-- Witness for C2: the key and URL facts at a concrete four-byte upload
into an empty container. -/
theorem upload_key_and_url_witness :
    blobNameOf ⟨2024, 1, 2, 3, 4, 5⟩ "some name.png" =
      strftimeCompact ⟨2024, 1, 2, 3, 4, 5⟩ ++ "-" ++ secure_filename "some name.png"
  ∧ '/' ∉ (secure_filename "some name.png").data
  ∧ secure_filename "my photo.png" = "my_photo.png"
  ∧ strftimeCompact ⟨2024, 1, 2, 3, 4, 5⟩ = "20240102T030405"
  ∧ blobNameOf ⟨2024, 1, 2, 3, 4, 5⟩ "my photo.png" =
      "20240102T030405-my_photo.png"
  ∧ (upload "b" "c" ⟨2024, 1, 2, 3, 4, 5⟩
        ⟨some ⟨"my photo.png", "image/png", [137, 80, 78, 71]⟩⟩ [] none).1 =
      { status := 200, ok := true,
        url := some (publicUrl "b" "c" "20240102T030405-my_photo.png") } := by
  have h := upload_key_and_url "b" "c" [] [137, 80, 78, 71]
    ⟨2024, 1, 2, 3, 4, 5⟩ "some name.png" (by decide)
  exact ⟨h.1, h.2.2.1, h.2.2.2.1, h.2.2.2.2.1, h.2.2.2.2.2.1, h.2.2.2.2.2.2.1⟩

/-- C6: uploads are create-or-replace: two valid uploads in the same whole
second whose filenames sanitize identically derive the same storage key,
both answer 200, and afterwards the container holds exactly one object
under that key — the second upload's content, which replaced the first. -/
theorem upload_overwrite (baseUrl container : String) (t : UTCTime)
    (f1 f2 : FilePart) (st : ContainerState)
    (hsan : secure_filename f1.filename = secure_filename f2.filename)
    (h1 : f1.filename ≠ "") (ht1 : f1.mimetype ∈ ALLOWED_CONTENT_TYPES)
    (hs1 : f1.content.length ≤ 10 * 1024 * 1024)
    (h2 : f2.filename ≠ "") (ht2 : f2.mimetype ∈ ALLOWED_CONTENT_TYPES)
    (hs2 : f2.content.length ≤ 10 * 1024 * 1024) :
    blobNameOf t f1.filename = blobNameOf t f2.filename
  ∧ (upload baseUrl container t ⟨some f1⟩ st none).1.status = 200
  ∧ (upload baseUrl container t ⟨some f2⟩
        (upload baseUrl container t ⟨some f1⟩ st none).2 none).1.status = 200
  ∧ ((upload baseUrl container t ⟨some f2⟩
        (upload baseUrl container t ⟨some f1⟩ st none).2 none).2.filter
          (fun kv => kv.1 == blobNameOf t f2.filename)) =
      [(blobNameOf t f2.filename, ⟨f2.content, f2.mimetype⟩)]
  ∧ countKey (upload baseUrl container t ⟨some f2⟩
        (upload baseUrl container t ⟨some f1⟩ st none).2 none).2
      (blobNameOf t f2.filename) = 1 := by
  have hkey : blobNameOf t f1.filename = blobNameOf t f2.filename := by
    unfold blobNameOf; rw [hsan]
  have u1 : upload baseUrl container t ⟨some f1⟩ st none =
      ({ status := 200, ok := true,
         url := some (publicUrl baseUrl container (blobNameOf t f1.filename)) },
        upload_blob (blobNameOf t f1.filename) ⟨f1.content, f1.mimetype⟩ st) := by
    rw [upload_passes baseUrl container t f1 st none h1 ht1 hs1, do_upload_ok]
  have u2 : upload baseUrl container t ⟨some f2⟩
      (upload_blob (blobNameOf t f1.filename) ⟨f1.content, f1.mimetype⟩ st) none =
      ({ status := 200, ok := true,
         url := some (publicUrl baseUrl container (blobNameOf t f2.filename)) },
        upload_blob (blobNameOf t f2.filename) ⟨f2.content, f2.mimetype⟩
          (upload_blob (blobNameOf t f1.filename) ⟨f1.content, f1.mimetype⟩ st)) := by
    rw [upload_passes baseUrl container t f2 _ none h2 ht2 hs2, do_upload_ok]
  refine ⟨hkey, ?_, ?_, ?_, ?_⟩
  · rw [u1]
  · simp only [u1, u2]
  · simp only [u1, u2]
    exact filter_upload_blob (blobNameOf t f2.filename)
      ⟨f2.content, f2.mimetype⟩ _
  · simp only [u1, u2, countKey]
    rw [filter_upload_blob]
    rfl

/-- Witness for C6: `a b.png` then `a_b.png` (which sanitize identically)
uploaded into an empty container in the same second leave exactly one
object, holding the second upload's bytes. -/
theorem upload_overwrite_witness :
    blobNameOf ⟨2024, 1, 2, 3, 4, 5⟩ "a b.png" =
      blobNameOf ⟨2024, 1, 2, 3, 4, 5⟩ "a_b.png"
  ∧ (upload "b" "c" ⟨2024, 1, 2, 3, 4, 5⟩
        ⟨some ⟨"a b.png", "image/png", [1]⟩⟩ [] none).1.status = 200
  ∧ (upload "b" "c" ⟨2024, 1, 2, 3, 4, 5⟩
        ⟨some ⟨"a_b.png", "image/jpeg", [2, 3]⟩⟩
        (upload "b" "c" ⟨2024, 1, 2, 3, 4, 5⟩
          ⟨some ⟨"a b.png", "image/png", [1]⟩⟩ [] none).2 none).1.status = 200
  ∧ ((upload "b" "c" ⟨2024, 1, 2, 3, 4, 5⟩
        ⟨some ⟨"a_b.png", "image/jpeg", [2, 3]⟩⟩
        (upload "b" "c" ⟨2024, 1, 2, 3, 4, 5⟩
          ⟨some ⟨"a b.png", "image/png", [1]⟩⟩ [] none).2 none).2.filter
          (fun kv => kv.1 == blobNameOf ⟨2024, 1, 2, 3, 4, 5⟩ "a_b.png")) =
      [(blobNameOf ⟨2024, 1, 2, 3, 4, 5⟩ "a_b.png", ⟨[2, 3], "image/jpeg"⟩)]
  ∧ countKey (upload "b" "c" ⟨2024, 1, 2, 3, 4, 5⟩
        ⟨some ⟨"a_b.png", "image/jpeg", [2, 3]⟩⟩
        (upload "b" "c" ⟨2024, 1, 2, 3, 4, 5⟩
          ⟨some ⟨"a b.png", "image/png", [1]⟩⟩ [] none).2 none).2
      (blobNameOf ⟨2024, 1, 2, 3, 4, 5⟩ "a_b.png") = 1 :=
  upload_overwrite "b" "c" ⟨2024, 1, 2, 3, 4, 5⟩
    ⟨"a b.png", "image/png", [1]⟩ ⟨"a_b.png", "image/jpeg", [2, 3]⟩ []
    (by decide) (by decide) (by decide) (by decide)
    (by decide) (by decide) (by decide)

/-- C3 counterexample: with the configured base URL ending in a trailing
slash (`x/`, itself free of double slashes), a successful upload's URL and
a gallery URL contain a double slash between base and container, contrary
to the claim that exactly one slash separates the components for every
configured base URL. -/
theorem url_double_slash_on_trailing_base :
    (upload "x/" "c" ⟨2024, 1, 2, 3, 4, 5⟩
        ⟨some ⟨"a.png", "image/png", [0]⟩⟩ [] none).1.url =
      some "x//c/20240102T030405-a.png"
  ∧ (gallery "x/" "c" [("k", ⟨[], "image/png"⟩)] none).gallery = some ["x//c/k"]
  ∧ hasDoubleSlash "x/" = false
  ∧ hasDoubleSlash "c" = false
  ∧ hasDoubleSlash "20240102T030405-a.png" = false
  ∧ hasDoubleSlash "x//c/20240102T030405-a.png" = true
  ∧ hasDoubleSlash "x//c/k" = true :=
  ⟨rfl, rfl, rfl, rfl, rfl, rfl, rfl⟩

/-- C3 amended: both handlers build every URL literally as
`baseURL ++ "/" ++ containerName ++ "/" ++ objectKey` with no
normalization; the result has no double slash when the base URL has none
and does not end in `/` and container and key are slash-free with the
container nonempty, but a base URL ending in a trailing slash always
produces a double slash. -/
theorem url_exact_interpolation (b c k : String) (t : UTCTime) (f : FilePart)
    (st : ContainerState)
    (hname : f.filename ≠ "") (htype : f.mimetype ∈ ALLOWED_CONTENT_TYPES)
    (hsize : f.content.length ≤ 10 * 1024 * 1024) :
    (upload b c t ⟨some f⟩ st none).1.url =
      some (b ++ "/" ++ c ++ "/" ++ blobNameOf t f.filename)
  ∧ (gallery b c st none).gallery =
      some (st.map (fun kv => b ++ "/" ++ c ++ "/" ++ kv.1))
  ∧ (hasDoubleSlash b = false → b.data.getLast? ≠ some '/' →
      '/' ∉ c.data → c ≠ "" → '/' ∉ k.data →
      hasDoubleSlash (publicUrl b c k) = false)
  ∧ (b.data.getLast? = some '/' → hasDoubleSlash (publicUrl b c k) = true) := by
  refine ⟨?_, rfl, ?_, ?_⟩
  · rw [upload_passes b c t f st none hname htype hsize]
    rfl
  · intro hb hbl hc hcne hk
    unfold hasDoubleSlash at hb ⊢
    rw [publicUrl_data]
    exact hds_full b.data c.data k.data hb hbl hc
      (data_ne_nil_of_ne_empty c hcne) hk
  · intro hlast
    unfold hasDoubleSlash
    rw [publicUrl_data]
    exact hds_trailing b.data _ hlast

/-- Witness for C3 amended: concrete URL construction for a slash-free
base and the double slash for a trailing-slash base. -/
theorem url_exact_interpolation_witness :
    (upload "basehost" "imgs" ⟨2024, 1, 2, 3, 4, 5⟩
        ⟨some ⟨"p.png", "image/png", [0]⟩⟩ [] none).1.url =
      some ("basehost" ++ "/" ++ "imgs" ++ "/" ++
        blobNameOf ⟨2024, 1, 2, 3, 4, 5⟩ "p.png")
  ∧ hasDoubleSlash (publicUrl "basehost" "imgs" "photo.png") = false
  ∧ hasDoubleSlash (publicUrl "basehost/" "imgs" "photo.png") = true := by
  have hA := url_exact_interpolation "basehost" "imgs" "photo.png"
    ⟨2024, 1, 2, 3, 4, 5⟩ ⟨"p.png", "image/png", [0]⟩ []
    (by decide) (by decide) (by decide)
  have hB := url_exact_interpolation "basehost/" "imgs" "photo.png"
    ⟨2024, 1, 2, 3, 4, 5⟩ ⟨"p.png", "image/png", [0]⟩ []
    (by decide) (by decide) (by decide)
  exact ⟨hA.1,
    hA.2.2.1 (by decide) (by decide) (by decide) (by decide) (by decide),
    hB.2.2.2 (by decide)⟩

/-- Witness for C10: a one-byte upload named `..` at a concrete time is
stored under the bare key `20240102T030405-` and answers 200. -/
theorem upload_dotdot_empty_key_witness :
    secure_filename ".." = ""
  ∧ blobNameOf ⟨2024, 1, 2, 3, 4, 5⟩ ".." =
      strftimeCompact ⟨2024, 1, 2, 3, 4, 5⟩ ++ "-"
  ∧ upload "b" "c" ⟨2024, 1, 2, 3, 4, 5⟩
        ⟨some ⟨"..", "image/png", [0]⟩⟩ [] none =
      ({ status := 200, ok := true,
         url := some (publicUrl "b" "c"
           (strftimeCompact ⟨2024, 1, 2, 3, 4, 5⟩ ++ "-")) },
        upload_blob (strftimeCompact ⟨2024, 1, 2, 3, 4, 5⟩ ++ "-")
          ⟨[0], "image/png"⟩ []) :=
  upload_dotdot_empty_key "b" "c" ⟨2024, 1, 2, 3, 4, 5⟩ [0] [] (by decide)

end Case07
